import Mathlib

/-!
Shallow embedding of the tinydancer RPC bridge
(src/tinydancer/src/rpc_wrapper/bridge.rs and mod.rs).

The bridge's RPC facade (`LiteBridge`) is embedded as pure functions over an
explicit `LiteBridge` state.  External collaborators and repository modules
that are not part of the given source (the wire-encoding helpers, the bincode
deserializer, the upstream RPC client, the data-availability sampler, the
BlockStore cache internals and the TxSender table record) are modelled from
the spec as abstract environment functions and record types; each such
definition carries a doc comment saying so.  Prometheus metrics, logging and
the filesystem config read (which only resolves the sampler endpoint string)
are not part of the observable state and are absorbed into the environment.
-/

/-- Raw wire bytes of a transaction (`WireTransaction` / `Vec<u8>`). -/
abbrev RawTx := List Nat

/-- Modelled from the spec: solana commitment levels (processed/confirmed/
finalized); `CommitmentConfig::default()` is finalized. -/
inductive CommitmentLevel where
  | processed
  | confirmed
  | finalized
deriving DecidableEq

/-- Modelled from the spec: the default commitment used by
`unwrap_or_default()` on a missing commitment config is `finalized`. -/
def defaultCommitment : CommitmentLevel := .finalized

/-- Modelled from the spec: the status of a confirmation
(`TransactionConfirmationStatus`). -/
inductive ConfirmationStatus where
  | processed
  | confirmed
  | finalized
deriving DecidableEq

/-- Modelled from the spec: the per-signature cluster status record
(`solana_transaction_status::TransactionStatus`) stored in and served from
TxSender's table; only passed through opaquely by the bridge. -/
structure TransactionStatus where
  slot : Nat := 0
  confirmations : Option Nat := none
  confirmation_status : Option ConfirmationStatus := none
deriving DecidableEq

/-- Modelled from the spec: the `TrackedTransaction` record held in
TxSender's `txs_sent_store` (defined in `rpc_wrapper/workers.rs`, which is not
among the given sources): `{ signature, raw_bytes, submitted_slot, status,
last_sent_at, retry_count }`.  `Default::default()` is the zero value of every
field with `status = None`. -/
structure TrackedTransaction where
  signature : String := ""
  raw_bytes : RawTx := []
  submitted_slot : Nat := 0
  status : Option TransactionStatus := none
  last_sent_at : Nat := 0
  retry_count : Nat := 0
deriving DecidableEq

/-- Block metadata record (`BlockInformation` from
`rpc_wrapper/block_store.rs`, not among the given sources).  Modelled from the
spec: `{ slot, block_height, blockhash }`. -/
structure BlockInformation where
  slot : Nat := 0
  block_height : Nat := 0
  blockhash : String := ""
deriving DecidableEq

/-- Modelled from the spec: the BlockStore cache (`rpc_wrapper/block_store.rs`
is not among the given sources).  `blocks` is the bounded recent-history map
keyed by blockhash string; `latest` is the per-commitment most recently
observed `(blockhash, BlockInformation)` pair. -/
structure BlockStore where
  blocks : List (String × BlockInformation)
  latest : CommitmentLevel → String × BlockInformation

/-- Modelled from the spec: `BlockStore::get_block_info(blockhash)` is an
O(1) lookup in the recent-history cache, `None` when the blockhash was never
observed or has expired. -/
def BlockStore.get_block_info (bs : BlockStore) (blockhash : String) :
    Option BlockInformation :=
  (bs.blocks.find? (fun p => p.1 == blockhash)).map (·.2)

/-- Modelled from the spec: `BlockStore::get_latest_block(commitment)` returns
the most recently observed `(blockhash, BlockInformation)` at the requested
commitment. -/
def BlockStore.get_latest_block (bs : BlockStore) (c : CommitmentLevel) :
    String × BlockInformation :=
  bs.latest c

/-- Modelled from the spec: `BlockStore::get_latest_block_info(commitment)`
returns only the `BlockInformation` part. -/
def BlockStore.get_latest_block_info (bs : BlockStore) (c : CommitmentLevel) :
    BlockInformation :=
  (bs.latest c).2

/-- Modelled from the spec: TxSender's concurrently readable map from
signature to `TrackedTransaction` (`txs_sent_store` in
`rpc_wrapper/workers.rs`), embedded as an association list; the bridge only
reads it (`get`) and inserts into it (`insert`, replacing any entry with the
same key). -/
structure TxSender where
  txs_sent_store : List (String × TrackedTransaction)
deriving DecidableEq

/-- Lookup of a signature in TxSender's table (`txs_sent_store.get(sig)`). -/
def TxSender.get (s : TxSender) (sig : String) : Option TrackedTransaction :=
  (s.txs_sent_store.find? (fun p => p.1 == sig)).map (·.2)

/-- Map insertion into TxSender's table (`txs_sent_store.insert(sig, v)`),
replacing any existing entry for the same signature. -/
def TxSender.insert (s : TxSender) (sig : String) (v : TrackedTransaction) :
    TxSender :=
  ⟨(sig, v) :: s.txs_sent_store.filter (fun p => p.1 != sig)⟩

/-- Modelled from the spec: the deserialized transaction
(`solana_sdk::transaction::VersionedTransaction`) as the bridge uses it: its
signature list and the recent blockhash its message references (the bridge
converts the blockhash to a string before the BlockStore lookup, so it is kept
as a string here). -/
structure VersionedTransaction where
  signatures : List String
  recent_blockhash : String
deriving DecidableEq

/-- Modelled from the spec: `SerializableTransaction::get_signature` returns
the transaction's own (first) signature; total here, with a default for the
degenerate empty list. -/
def VersionedTransaction.get_signature (tx : VersionedTransaction) : String :=
  tx.signatures.headD ""

/-- The `get_recent_blockhash()` accessor, already stringified. -/
def VersionedTransaction.get_recent_blockhash (tx : VersionedTransaction) :
    String :=
  tx.recent_blockhash

/-- Modelled from the spec: the wire encodings supported by the
encoding helpers (`rpc_wrapper/encoding.rs`, not among the given sources). -/
inductive BinaryEncoding where
  | base58
  | base64
deriving DecidableEq

/-- Modelled from the spec: `SendTransactionConfig` from
`rpc_wrapper/configs.rs` (not among the given sources); its default selects
base58 encoding and no retry bound. -/
structure SendTransactionConfig where
  encoding : BinaryEncoding := .base58
  max_retries : Option Nat := none
deriving DecidableEq

/-- Modelled from the spec: `IsBlockHashValidConfig` from
`rpc_wrapper/configs.rs` (not among the given sources); an optional
commitment. -/
structure IsBlockHashValidConfig where
  commitment : Option CommitmentLevel := none
deriving DecidableEq

/-- The `RpcContextConfig` accepted by `get_latest_blockhash`. -/
structure RpcContextConfig where
  commitment : Option CommitmentLevel := none
  min_context_slot : Option Nat := none
deriving DecidableEq

/-- Modelled from the spec: `RpcRequestAirdropConfig`; only passed through to
the upstream client. -/
structure RpcRequestAirdropConfig where
  recent_blockhash : Option String := none
  commitment : Option CommitmentLevel := none
deriving DecidableEq

/-- Response context of the bridge's extended responses
(`LiteRpcResponseContext` in bridge.rs): slot, api version (always `None` in
the source) and the sampled-verification boolean. -/
structure LiteRpcResponseContext where
  slot : Nat
  api_version : Option String
  sampled : Bool
deriving DecidableEq

/-- Extended response wrapper (`LiteResponse<T>` in bridge.rs). -/
structure LiteResponse (α : Type) where
  context : LiteRpcResponseContext
  value : α
deriving DecidableEq

/-- Plain solana response context (`RpcResponseContext`). -/
structure RpcResponseContext where
  slot : Nat
  api_version : Option String
deriving DecidableEq

/-- Plain solana response wrapper (`RpcResponse<T>`). -/
structure RpcResponse (α : Type) where
  context : RpcResponseContext
  value : α
deriving DecidableEq

/-- Blockhash payload of `get_latest_blockhash` (`RpcBlockhash`). -/
structure RpcBlockhash where
  blockhash : String
  last_valid_block_height : Nat
deriving DecidableEq

/-- Outcome of an RPC handler: a normal result, a jsonrpsee custom error
carrying a message, or a process panic (from `.expect(..)` / `.unwrap()`). -/
inductive CallResult (α : Type) where
  | ok : α → CallResult α
  | err : String → CallResult α
  | panic : String → CallResult α
deriving DecidableEq

/-- The `LiteBridge` state visible to the embedded RPC handlers: the
BlockStore, the optional intake channel (`None` until `start_services` has
run; a queue of `(signature, raw bytes, slot)` entries once created) and the
TxSender with its table.  The upstream RPC client, the TPU manager, the
rocksdb handle and the block listener do not carry handler-visible state and
are modelled as environment functions where a handler calls them. -/
structure LiteBridge where
  block_store : BlockStore
  tx_send_channel : Option (List (String × RawTx × Nat))
  tx_sender : TxSender

/-- Environment of `send_transaction`: the wire decoder of
`rpc_wrapper/encoding.rs` (modelled from the spec: base58/base64 decode that
fails on malformed input, its error stringified), the bincode deserializer
into a `VersionedTransaction` (external crate, error stringified), and the
base58 encoder applied to the returned signature. -/
structure SendEnv where
  decode : BinaryEncoding → String → Except String RawTx
  deserialize : RawTx → Except String VersionedTransaction
  base58Encode : String → String

/-- Embedding of `LiteBridge::send_transaction` (bridge.rs lines 206-249):
decode the wire encoding, deserialize, take the transaction's signature, look
the referenced blockhash up in the BlockStore (error "Blockhash not found in
block store" when absent), then push `(sig, raw_tx, slot)` onto the intake
channel — panicking "Lite Bridge Not Executed" when the channel is `None` —
and return the base58-encoded signature.  Metrics increments are dropped. -/
def LiteBridge.send_transaction (env : SendEnv) (self : LiteBridge)
    (tx : String) (send_transaction_config : Option SendTransactionConfig) :
    CallResult String × LiteBridge :=
  let cfg := send_transaction_config.getD {}
  match env.decode cfg.encoding tx with
  | .error err => (.err err, self)
  | .ok raw_tx =>
    match env.deserialize raw_tx with
    | .error err => (.err err, self)
    | .ok vtx =>
      let sig := vtx.get_signature
      match self.block_store.get_block_info vtx.get_recent_blockhash with
      | none => (.err "Blockhash not found in block store", self)
      | some bi =>
        match self.tx_send_channel with
        | none => (.panic "Lite Bridge Not Executed", self)
        | some ch =>
          (.ok (env.base58Encode sig),
            { self with tx_send_channel := some (ch ++ [(sig, raw_tx, bi.slot)]) })

/-- Environment of the read-only query handlers: the sampler endpoint string
resolved from the home-directory config file (default "http://0.0.0.0:8899"),
and the data-availability verification oracle
`pull_and_verify_shreds(slot, endpoint, sample_count)` (modelled from the
spec: the sampler subsystem returns a boolean for a slot). -/
structure QueryEnv where
  rpc_url : String
  pull_and_verify_shreds : Nat → String → Nat → Bool

/-- Embedding of `LiteBridge::get_latest_blockhash` (bridge.rs lines
251-299): resolve the commitment from the optional config (default
finalized), read the BlockStore's latest `(blockhash, BlockInformation)` at
that commitment, invoke the verification oracle on the observed slot with the
resolved endpoint and a sample count of 10, and answer with the blockhash,
`block_height + 150` as the last valid height and a context carrying the slot
and the sampled boolean. -/
def LiteBridge.get_latest_blockhash (env : QueryEnv) (self : LiteBridge)
    (config : Option RpcContextConfig) : LiteResponse RpcBlockhash :=
  let commitment_config :=
    (config.map (fun c => c.commitment.getD defaultCommitment)).getD
      defaultCommitment
  let latest := self.block_store.get_latest_block commitment_config
  let sampled := env.pull_and_verify_shreds latest.2.slot env.rpc_url 10
  { context := { slot := latest.2.slot, api_version := none, sampled := sampled },
    value := { blockhash := latest.1,
               last_valid_block_height := latest.2.block_height + 150 } }

/-- Environment of `is_blockhash_valid`: the `Hash::from_str` parser (error
stringified) and the upstream RPC client's
`is_blockhash_valid(hash, commitment)` check (modelled from the spec: a
wrapped upstream call that can fail, its error stringified). -/
structure ValidityEnv where
  parseHash : String → Except String String
  rpcIsBlockhashValid : String → CommitmentLevel → Except String Bool

/-- Embedding of `LiteBridge::is_blockhash_valid` (bridge.rs lines 301-342):
resolve the commitment (default finalized), parse the blockhash (custom error
on failure), delegate validity to the upstream client (custom error carrying
the upstream message on failure), and pair the upstream boolean with the
locally cached latest slot at that commitment. -/
def LiteBridge.is_blockhash_valid (env : ValidityEnv) (self : LiteBridge)
    (blockhash : String) (config : Option IsBlockHashValidConfig) :
    CallResult (RpcResponse Bool) :=
  let commitment := (config.getD {}).commitment.getD defaultCommitment
  match env.parseHash blockhash with
  | .error err => .err err
  | .ok bh =>
    match env.rpcIsBlockhashValid bh commitment with
    | .error err => .err err
    | .ok is_valid =>
      let slot := (self.block_store.get_latest_block_info commitment).slot
      .ok { context := { slot := slot, api_version := none },
            value := is_valid }

/-- Embedding of `LiteBridge::get_signature_statuses` (bridge.rs lines
344-391): map each requested signature to the status stored in TxSender's
table (`None` when the signature is untracked or its status is unset), read
the latest finalized slot from the BlockStore, invoke the verification oracle
once on that slot, and answer with the status list and a context carrying the
finalized slot and the sampled boolean.  The unused
`RpcSignatureStatusConfig` parameter of the source is dropped. -/
def LiteBridge.get_signature_statuses (env : QueryEnv) (self : LiteBridge)
    (sigs : List String) : LiteResponse (List (Option TransactionStatus)) :=
  let sig_statuses :=
    sigs.map (fun sig => (self.tx_sender.get sig).bind (fun v => v.status))
  let slot :=
    (self.block_store.get_latest_block_info CommitmentLevel.finalized).slot
  let sampled := env.pull_and_verify_shreds slot env.rpc_url 10
  { context := { slot := slot, api_version := none, sampled := sampled },
    value := sig_statuses }

/-- Environment of `request_airdrop`: the `Pubkey::from_str` parser (error
stringified) and the upstream client's
`request_airdrop_with_config(pubkey, lamports, config)` call returning the
airdrop signature already stringified (modelled from the spec: a wrapped
upstream call that can fail, its error stringified). -/
structure AirdropEnv where
  parsePubkey : String → Except String String
  request_airdrop_with_config :
    String → Nat → RpcRequestAirdropConfig → Except String String

/-- Embedding of `LiteBridge::request_airdrop` (bridge.rs lines 403-434):
parse the pubkey (custom error on failure), delegate to the upstream client
(custom error carrying the upstream message on failure, no table change), and
on success insert a `Default::default()` `TrackedTransaction` keyed by the
airdrop signature into TxSender's table and return the signature string. -/
def LiteBridge.request_airdrop (env : AirdropEnv) (self : LiteBridge)
    (pubkey_str : String) (lamports : Nat)
    (config : Option RpcRequestAirdropConfig) :
    CallResult String × LiteBridge :=
  match env.parsePubkey pubkey_str with
  | .error err => (.err err, self)
  | .ok pubkey =>
    match env.request_airdrop_with_config pubkey lamports (config.getD {}) with
    | .error err => (.err err, self)
    | .ok airdrop_sig =>
      (.ok airdrop_sig,
        { self with tx_sender := self.tx_sender.insert airdrop_sig {} })

/-- The six long-running tasks supervised by `start_services` (bridge.rs
lines 191-198), in the order of the `services` vector. -/
inductive ServiceTask where
  | wsServer
  | httpServer
  | txSender
  | finalizedBlockListener
  | confirmedBlockListener
  | cleaner
deriving DecidableEq

/-- The `services` vector returned by `LiteBridge::start_services`. -/
def services : List ServiceTask :=
  [.wsServer, .httpServer, .txSender, .finalizedBlockListener,
   .confirmedBlockListener, .cleaner]

/-- Result of a supervised task's own body once the task finishes: `Ok(())`
or an `anyhow` error message (in bridge.rs the two server tasks only finish
via `bail!("Websocket server stopped")` / `bail!("HTTP server stopped")`). -/
abbrev TaskResult := Except String Unit

/-- Resolution state of one task's `JoinHandle<anyhow::Result<()>>`: `none`
while the task is still running; `some (.error e)` when the handle resolved
with a `JoinError` (the task panicked or was aborted); `some (.ok r)` when
the task finished normally, carrying its body's own result `r` — note that a
body finishing with its inner `Err` still resolves the handle as `Ok`. -/
abbrev HandleState := Option (Except String TaskResult)

/-- Embedding of `futures::future::try_join_all` over the six
`JoinHandle<anyhow::Result<()>>`s of the `services` vector (mod.rs line
124), with the documented semantics of the futures crate: the joined future
resolves `Err` with the first `JoinError` among resolved handles (in vector
order), resolves `Ok` with all six inner results only once every handle has
resolved `Ok`, and otherwise is still pending (`none`).  A task that merely
finished by returning its inner `anyhow::Err` is a resolved `Ok` item, never
a short-circuit. -/
def tryJoinAll (handles : ServiceTask → HandleState) :
    Option (Except String (List TaskResult)) :=
  match (services.filterMap (fun t =>
      match handles t with
      | some (.error e) => some e
      | _ => none)).head? with
  | some e => some (.error e)
  | none =>
    match services.mapM (fun t =>
        match handles t with
        | some (.ok r) => some r
        | _ => none) with
    | some rs => some (.ok rs)
    | none => none

/-- Embedding of the `select!` in `TransactionService::new` (mod.rs lines
128-136), as a function of which side is ready: when the joined services
future has resolved (with either payload — the arm binds `_`), its arm
reports `bail!("Services quit unexpectedly")`; otherwise, when ctrl-c has
arrived, the service reports a clean `Ok(())`; with neither side ready the
select is still pending (`none`) and the service keeps running.  (When both
sides are ready together the source picks an arm nondeterministically; this
function fixes the services arm, which the theorem below never relies on.) -/
def superviseSelect (handles : ServiceTask → HandleState) (ctrlC : Bool) :
    Option TaskResult :=
  match tryJoinAll handles with
  | some _ => some (.error "Services quit unexpectedly")
  | none => if ctrlC then some (.ok ()) else none

/-! Concrete sample data, used to evaluate the theorems below on closed
inputs. -/

/-- Sample block record at slot 100, height 90, blockhash "bh1". -/
def sampleBlockInfo : BlockInformation :=
  { slot := 100, block_height := 90, blockhash := "bh1" }

/-- Sample BlockStore knowing only "bh1", latest at every commitment. -/
def sampleStore : BlockStore :=
  { blocks := [("bh1", sampleBlockInfo)],
    latest := fun _ => ("bh1", sampleBlockInfo) }

/-- Sample send environment: "goodtx" decodes and deserializes to a
transaction on the known blockhash, "staletx" to one on an unknown
blockhash, "baddes" decodes but fails deserialization, and anything else
fails decoding. -/
def sampleSendEnv : SendEnv :=
  { decode := fun _ s =>
      if s == "goodtx" then .ok [1, 2]
      else if s == "baddes" then .ok [9]
      else if s == "staletx" then .ok [7]
      else .error "decode failed"
  , deserialize := fun r =>
      if r == [1, 2] then .ok { signatures := ["sig1"], recent_blockhash := "bh1" }
      else if r == [7] then .ok { signatures := ["sig2"], recent_blockhash := "nope" }
      else .error "deserialize failed"
  , base58Encode := fun s => "b58:" ++ s }

/-- Sample tracked status (confirmed at slot 42). -/
def sampleStatus : TransactionStatus :=
  { slot := 42, confirmations := some 1, confirmation_status := some .confirmed }

/-- Sample TxSender table: "s1" tracked with a status, "s2" tracked with its
status unset. -/
def sampleTxSender : TxSender :=
  ⟨[("s1", { status := some sampleStatus }), ("s2", {})]⟩

/-- Sample bridge after `start_services`: empty intake channel present. -/
def sampleBridge : LiteBridge :=
  { block_store := sampleStore, tx_send_channel := some [],
    tx_sender := sampleTxSender }

/-- Sample bridge before `start_services`: no intake channel. -/
def sampleBridgeNoChannel : LiteBridge :=
  { sampleBridge with tx_send_channel := none }

/-- Sample query environment: fixed endpoint, oracle true on even slots. -/
def sampleQueryEnv : QueryEnv :=
  { rpc_url := "http://0.0.0.0:8899",
    pull_and_verify_shreds := fun slot _ _ => slot % 2 == 0 }

/-- Sample validity environment: "badhash" fails parsing, "upfail" makes the
upstream call fail, otherwise upstream deems exactly "bh1" valid. -/
def sampleValidityEnv : ValidityEnv :=
  { parseHash := fun s =>
      if s == "badhash" then .error "failed to parse hash" else .ok s
  , rpcIsBlockhashValid := fun h _ =>
      if h == "upfail" then .error "upstream down" else .ok (h == "bh1") }

/-- Sample airdrop environment: "badkey" fails parsing, "failkey" makes the
upstream call fail, otherwise the airdrop signature is derived from the
pubkey. -/
def sampleAirdropEnv : AirdropEnv :=
  { parsePubkey := fun s =>
      if s == "badkey" then .error "bad pubkey" else .ok s
  , request_airdrop_with_config := fun pk _ _ =>
      if pk == "failkey" then .error "airdrop refused"
      else .ok ("airdropsig:" ++ pk) }

/-- Sample handle states in which exactly one supervised task — the
websocket server — has finished, returning its inner error from
`bail!("Websocket server stopped")` (so its handle resolved `Ok(Err(..))`),
while the other five tasks are still running. -/
def wsExitHandles : ServiceTask → HandleState
  | .wsServer => some (.ok (.error "Websocket server stopped"))
  | _ => none

/-- Sample handle states in which every supervised task has finished,
each returning an inner error. -/
def allExitHandles : ServiceTask → HandleState :=
  fun _ => some (.ok (.error "stopped"))

/-- Sample handle states in which the cleaner task panicked (its handle
resolved with a `JoinError`) while the other five tasks are still
running. -/
def cleanerPanicHandles : ServiceTask → HandleState
  | .cleaner => some (.error "task panicked")
  | _ => none

/-- Key of an insertion is found and maps to the inserted record. -/
theorem TxSender.get_insert_self (s : TxSender) (k : String)
    (v : TrackedTransaction) : (s.insert k v).get k = some v := by
  unfold TxSender.get TxSender.insert
  rw [List.find?_cons_of_pos]
  · rfl
  · simp

/-- C1: every submitted transaction that decodes and deserializes but whose
recent blockhash is absent from the BlockStore is answered with the
blockhash-not-found error "Blockhash not found in block store", and the
bridge state — in particular the intake channel and TxSender's table — is
returned unchanged. -/
theorem send_transaction_unknown_blockhash (env : SendEnv)
    (self : LiteBridge) (tx : String) (cfg : Option SendTransactionConfig)
    (raw_tx : RawTx) (vtx : VersionedTransaction)
    (hdec : env.decode (cfg.getD {}).encoding tx = .ok raw_tx)
    (hdes : env.deserialize raw_tx = .ok vtx)
    (habs : self.block_store.get_block_info vtx.get_recent_blockhash = none) :
    LiteBridge.send_transaction env self tx cfg =
      (.err "Blockhash not found in block store", self) ∧
    (LiteBridge.send_transaction env self tx cfg).2.tx_send_channel =
      self.tx_send_channel ∧
    (LiteBridge.send_transaction env self tx cfg).2.tx_sender =
      self.tx_sender := by
  have h : LiteBridge.send_transaction env self tx cfg =
      (.err "Blockhash not found in block store", self) := by
    simp [LiteBridge.send_transaction, hdec, hdes, habs]
  exact ⟨h, by rw [h], by rw [h]⟩

/-- Closed instance of C1 on the sample data: a transaction referencing the
unknown blockhash "nope" is rejected and the state is unchanged. -/
theorem send_transaction_unknown_blockhash_witness :
    LiteBridge.send_transaction sampleSendEnv sampleBridge "staletx" none =
      (.err "Blockhash not found in block store", sampleBridge) ∧
    (LiteBridge.send_transaction sampleSendEnv sampleBridge "staletx"
        none).2.tx_send_channel = sampleBridge.tx_send_channel ∧
    (LiteBridge.send_transaction sampleSendEnv sampleBridge "staletx"
        none).2.tx_sender = sampleBridge.tx_sender :=
  send_transaction_unknown_blockhash sampleSendEnv sampleBridge "staletx"
    none [7] { signatures := ["sig2"], recent_blockhash := "nope" }
    rfl rfl rfl

/-- C2: every transaction that decodes, deserializes with first signature
`s` and references a blockhash the BlockStore knows at slot `bi.slot`, on a
bridge whose intake channel exists, is answered with the base58 encoding of
`s`, and `(s, raw bytes, bi.slot)` is appended to the intake channel. -/
theorem send_transaction_success (env : SendEnv) (self : LiteBridge)
    (tx : String) (cfg : Option SendTransactionConfig) (raw_tx : RawTx)
    (vtx : VersionedTransaction) (s : String) (bi : BlockInformation)
    (ch : List (String × RawTx × Nat))
    (hdec : env.decode (cfg.getD {}).encoding tx = .ok raw_tx)
    (hdes : env.deserialize raw_tx = .ok vtx)
    (hsig : vtx.signatures.head? = some s)
    (hbi : self.block_store.get_block_info vtx.get_recent_blockhash = some bi)
    (hch : self.tx_send_channel = some ch) :
    LiteBridge.send_transaction env self tx cfg =
      (.ok (env.base58Encode s),
        { self with tx_send_channel := some (ch ++ [(s, raw_tx, bi.slot)]) }) := by
  have hs : vtx.get_signature = s := by
    unfold VersionedTransaction.get_signature
    cases h : vtx.signatures with
    | nil => simp [h] at hsig
    | cons a l =>
      rw [h] at hsig
      simpa using hsig
  simp [LiteBridge.send_transaction, hdec, hdes, hbi, hch, hs]

/-- Closed instance of C2 on the sample data: "goodtx" is accepted, the
base58-encoded signature is returned, and `("sig1", [1, 2], 100)` is
enqueued. -/
theorem send_transaction_success_witness :
    LiteBridge.send_transaction sampleSendEnv sampleBridge "goodtx" none =
      (.ok (sampleSendEnv.base58Encode "sig1"),
        { sampleBridge with
            tx_send_channel := some [("sig1", [1, 2], 100)] }) :=
  send_transaction_success sampleSendEnv sampleBridge "goodtx" none [1, 2]
    { signatures := ["sig1"], recent_blockhash := "bh1" } "sig1"
    sampleBlockInfo [] rfl rfl rfl rfl rfl

/-- C3: every input that fails wire decoding, and every input that decodes
but fails deserialization, is answered with an error carrying the original
decode/deserialize error message, and the bridge state is returned unchanged
(the outcome does not depend on the BlockStore or the channel, so the
failure precedes any blockhash lookup or enqueue). -/
theorem send_transaction_decode_or_deserialize_error (env : SendEnv)
    (self : LiteBridge) (tx : String) (cfg : Option SendTransactionConfig) :
    (∀ e, env.decode (cfg.getD {}).encoding tx = .error e →
      LiteBridge.send_transaction env self tx cfg = (.err e, self)) ∧
    (∀ raw_tx e, env.decode (cfg.getD {}).encoding tx = .ok raw_tx →
      env.deserialize raw_tx = .error e →
      LiteBridge.send_transaction env self tx cfg = (.err e, self)) := by
  constructor
  · intro e hdec
    simp [LiteBridge.send_transaction, hdec]
  · intro raw_tx e hdec hdes
    simp [LiteBridge.send_transaction, hdec, hdes]

/-- Closed instance of C3 on the sample data: an undecodable input and an
undeserializable input are both rejected with the original message and leave
the state unchanged. -/
theorem send_transaction_decode_or_deserialize_error_witness :
    LiteBridge.send_transaction sampleSendEnv sampleBridge "badtx" none =
      (.err "decode failed", sampleBridge) ∧
    LiteBridge.send_transaction sampleSendEnv sampleBridge "baddes" none =
      (.err "deserialize failed", sampleBridge) :=
  ⟨(send_transaction_decode_or_deserialize_error sampleSendEnv sampleBridge
      "badtx" none).1 "decode failed" rfl,
   (send_transaction_decode_or_deserialize_error sampleSendEnv sampleBridge
      "baddes" none).2 [9] "deserialize failed" rfl rfl⟩

/-- C9: on a bridge whose `start_services` has not run (intake channel
`None`), a well-formed transaction on a known blockhash makes
`send_transaction` panic "Lite Bridge Not Executed" instead of returning an
RPC error. -/
theorem send_transaction_not_executed_panics :
    LiteBridge.send_transaction sampleSendEnv sampleBridgeNoChannel "goodtx"
      none = (.panic "Lite Bridge Not Executed", sampleBridgeNoChannel) := by
  rfl

/-- C4: every `get_latest_blockhash` response carries, for the commitment
resolved from the config, the BlockStore's latest blockhash, a last valid
height derived from the read block height, and a context holding exactly the
slot of that read and the boolean obtained from the verification oracle on
that same slot. -/
theorem get_latest_blockhash_spec (env : QueryEnv) (self : LiteBridge)
    (config : Option RpcContextConfig) :
    (LiteBridge.get_latest_blockhash env self config).context.slot =
      (self.block_store.get_latest_block
        ((config.map (fun c => c.commitment.getD defaultCommitment)).getD
          defaultCommitment)).2.slot ∧
    (LiteBridge.get_latest_blockhash env self config).context.sampled =
      env.pull_and_verify_shreds
        (self.block_store.get_latest_block
          ((config.map (fun c => c.commitment.getD defaultCommitment)).getD
            defaultCommitment)).2.slot env.rpc_url 10 ∧
    (LiteBridge.get_latest_blockhash env self config).value.blockhash =
      (self.block_store.get_latest_block
        ((config.map (fun c => c.commitment.getD defaultCommitment)).getD
          defaultCommitment)).1 ∧
    (LiteBridge.get_latest_blockhash env self config).value.last_valid_block_height =
      (self.block_store.get_latest_block
        ((config.map (fun c => c.commitment.getD defaultCommitment)).getD
          defaultCommitment)).2.block_height + 150 :=
  ⟨rfl, rfl, rfl, rfl⟩

/-- C10: every `get_latest_blockhash` response reports a last valid block
height that is exactly the block height read from the BlockStore plus 150. -/
theorem get_latest_blockhash_validity_window (env : QueryEnv)
    (self : LiteBridge) (config : Option RpcContextConfig) :
    (LiteBridge.get_latest_blockhash env self config).value.last_valid_block_height =
      (self.block_store.get_latest_block
        ((config.map (fun c => c.commitment.getD defaultCommitment)).getD
          defaultCommitment)).2.block_height + 150 :=
  rfl

/-- C5: when the blockhash parses and the upstream validity check returns a
boolean, `is_blockhash_valid` answers with exactly that boolean and a
context slot equal to the locally cached latest slot at the resolved
commitment; when the upstream check fails, the upstream error message is
returned verbatim as the error. -/
theorem is_blockhash_valid_spec (env : ValidityEnv) (self : LiteBridge)
    (blockhash : String) (config : Option IsBlockHashValidConfig) :
    (∀ bh b, env.parseHash blockhash = .ok bh →
      env.rpcIsBlockhashValid bh
        ((config.getD {}).commitment.getD defaultCommitment) = .ok b →
      LiteBridge.is_blockhash_valid env self blockhash config =
        .ok ⟨⟨(self.block_store.get_latest_block_info
            ((config.getD {}).commitment.getD defaultCommitment)).slot,
           none⟩, b⟩) ∧
    (∀ bh e, env.parseHash blockhash = .ok bh →
      env.rpcIsBlockhashValid bh
        ((config.getD {}).commitment.getD defaultCommitment) = .error e →
      LiteBridge.is_blockhash_valid env self blockhash config = .err e) := by
  constructor
  · intro bh b hph hup
    simp [LiteBridge.is_blockhash_valid, hph, hup]
  · intro bh e hph hup
    simp [LiteBridge.is_blockhash_valid, hph, hup]

/-- Closed instance of C5 on the sample data: upstream deems "bh1" valid and
the context slot is the cached slot 100; upstream failure on "upfail" is
surfaced verbatim. -/
theorem is_blockhash_valid_spec_witness :
    LiteBridge.is_blockhash_valid sampleValidityEnv sampleBridge "bh1" none =
      .ok { context := { slot := 100, api_version := none }, value := true } ∧
    LiteBridge.is_blockhash_valid sampleValidityEnv sampleBridge "upfail"
      none = .err "upstream down" :=
  ⟨(is_blockhash_valid_spec sampleValidityEnv sampleBridge "bh1" none).1
      "bh1" true rfl rfl,
   (is_blockhash_valid_spec sampleValidityEnv sampleBridge "upfail" none).2
      "upfail" "upstream down" rfl rfl⟩

/-- C6: every `get_signature_statuses` answer has one entry per requested
signature in order — the status stored in TxSender's table when the
signature is tracked with a status set, `None` otherwise — and its context
carries the current finalized slot together with a single sampled boolean
obtained from the verification oracle on that finalized slot. -/
theorem get_signature_statuses_spec (env : QueryEnv) (self : LiteBridge)
    (sigs : List String) :
    (LiteBridge.get_signature_statuses env self sigs).value.length =
      sigs.length ∧
    (∀ i, (LiteBridge.get_signature_statuses env self sigs).value.get? i =
      (sigs.get? i).map
        (fun sig => (self.tx_sender.get sig).bind (fun v => v.status))) ∧
    (LiteBridge.get_signature_statuses env self sigs).context.slot =
      (self.block_store.get_latest_block_info CommitmentLevel.finalized).slot ∧
    (LiteBridge.get_signature_statuses env self sigs).context.sampled =
      env.pull_and_verify_shreds
        (self.block_store.get_latest_block_info CommitmentLevel.finalized).slot
        env.rpc_url 10 := by
  refine ⟨?_, ?_, rfl, rfl⟩
  · simp [LiteBridge.get_signature_statuses]
  · intro i
    simp [LiteBridge.get_signature_statuses]

/-- C7: when the pubkey parses and the upstream airdrop returns a signature,
`request_airdrop` inserts a default (zero-value) `TrackedTransaction` keyed
by that signature into TxSender's table — so a lookup of the signature finds
the default record — and returns the signature string; when the upstream
call fails, the error message is returned preserved and the state is
unchanged. -/
theorem request_airdrop_spec (env : AirdropEnv) (self : LiteBridge)
    (pubkey_str : String) (lamports : Nat)
    (config : Option RpcRequestAirdropConfig) :
    (∀ pk sig, env.parsePubkey pubkey_str = .ok pk →
      env.request_airdrop_with_config pk lamports (config.getD {}) = .ok sig →
      LiteBridge.request_airdrop env self pubkey_str lamports config =
        (.ok sig, { self with tx_sender := self.tx_sender.insert sig {} }) ∧
      (LiteBridge.request_airdrop env self pubkey_str lamports
          config).2.tx_sender.get sig = some ({} : TrackedTransaction)) ∧
    (∀ pk e, env.parsePubkey pubkey_str = .ok pk →
      env.request_airdrop_with_config pk lamports (config.getD {}) =
        .error e →
      LiteBridge.request_airdrop env self pubkey_str lamports config =
        (.err e, self)) := by
  constructor
  · intro pk sig hpk hup
    have h : LiteBridge.request_airdrop env self pubkey_str lamports config =
        (.ok sig, { self with tx_sender := self.tx_sender.insert sig {} }) := by
      simp [LiteBridge.request_airdrop, hpk, hup]
    exact ⟨h, by rw [h]; exact TxSender.get_insert_self _ _ _⟩
  · intro pk e hpk hup
    simp [LiteBridge.request_airdrop, hpk, hup]

/-- Closed instance of C7 on the sample data: a successful airdrop inserts a
default record found under the returned signature; a failed airdrop surfaces
the upstream message and leaves the state unchanged. -/
theorem request_airdrop_spec_witness :
    (LiteBridge.request_airdrop sampleAirdropEnv sampleBridge "goodkey" 5
        none =
      (.ok "airdropsig:goodkey",
        { sampleBridge with
            tx_sender := sampleBridge.tx_sender.insert "airdropsig:goodkey" {} }) ∧
      (LiteBridge.request_airdrop sampleAirdropEnv sampleBridge "goodkey" 5
          none).2.tx_sender.get "airdropsig:goodkey" =
        some ({} : TrackedTransaction)) ∧
    LiteBridge.request_airdrop sampleAirdropEnv sampleBridge "failkey" 5
      none = (.err "airdrop refused", sampleBridge) :=
  ⟨(request_airdrop_spec sampleAirdropEnv sampleBridge "goodkey" 5 none).1
      "goodkey" "airdropsig:goodkey" rfl rfl,
   (request_airdrop_spec sampleAirdropEnv sampleBridge "failkey" 5 none).2
      "failkey" "airdrop refused" rfl rfl⟩

/-- C8, evaluated at the failing input: six distinct tasks are supervised,
but when the websocket server task alone has finished — returning its inner
error, with no panic and no ctrl-c — the `try_join_all` join is still
pending and the select reports nothing, so the service keeps running on five
tasks instead of terminating with an error as the claim states.  The join
does complete — and the select then reports "Services quit unexpectedly" —
only once all six tasks have finished, or as soon as some handle resolves
with a `JoinError` (a panicked or aborted task). -/
theorem supervision_survives_single_task_exit :
    services.length = 6 ∧
    services.Nodup ∧
    tryJoinAll wsExitHandles = none ∧
    superviseSelect wsExitHandles false = none ∧
    superviseSelect allExitHandles false =
      some (.error "Services quit unexpectedly") ∧
    superviseSelect cleanerPanicHandles false =
      some (.error "Services quit unexpectedly") := by
  refine ⟨rfl, by decide, rfl, rfl, rfl, rfl⟩

